import Mathlib

/-!
Verification development for the audio-to-text page component.

The component is embedded shallowly as trace semantics: each async handler
(startRecording, stopRecording, loadSavedTranscriptions, deleteTranscription)
is a pure function from a database-response oracle and the current component
state to the list of events it performs, in program order.  Events are the
state-setter calls, network call boundaries, alerts and console logs.  The
final component state is the left fold of the events over the initial state.

The embedding follows the identifier-bearing, loading-aware page variant
(the one with `isLoading` and `showDeleteConfirm` state), which is the
variant the specification documents.

The JavaScript event-loop semantics of the one fire-and-forget call site
(`loadSavedTranscriptions()` invoked without `await` after a successful
insert or delete) is modelled faithfully: the reload runs synchronously up
to its first awaited network call, that call is issued, then the caller's
`finally` block runs, and only afterwards does the reload's awaited
response arrive and the rest of the reload execute.
-/

/-- A persisted transcript record: `interface Transcription` in the source. -/
structure Transcription where
  id : Nat
  text : String
  created_at : String
deriving DecidableEq, Repr

/-- The component's React state hooks, as one record.  `recognition` is
whether the speech-recognition handle is present (non-null). -/
structure AppState where
  isRecording : Bool
  transcription : String
  savedTranscriptions : List Transcription
  isLoading : Bool
  showDeleteConfirm : Option Nat
  recognition : Bool
deriving DecidableEq, Repr

/-- The state at mount: all `useState` initial values. -/
def initialState : AppState :=
  { isRecording := false
    transcription := ""
    savedTranscriptions := []
    isLoading := false
    showDeleteConfirm := none
    recognition := false }

/-- Outcome of one awaited store call: resolves with no error, resolves
with an error object, or rejects (throws into the enclosing catch). -/
inductive Res where
  | ok
  | err
  | ex
deriving DecidableEq, Repr

/-- The database-response oracle: what each kind of store call returns
when issued during the run under analysis. -/
structure DB where
  probeRes : Res
  insertRes : Res
  selectRes : Res
  selectData : List Transcription
  deleteRes : Res
deriving DecidableEq, Repr

/-- The network calls the component issues against the store. -/
inductive NetCall where
  | probe
  | insert (text : String) (created_at : String)
  | select
  | delete (id : Nat)
deriving DecidableEq, Repr

/-- One observable event of a handler run. -/
inductive Ev where
  | setIsRecording (b : Bool)
  | setTranscription (s : String)
  | setSaved (l : List Transcription)
  | setIsLoading (b : Bool)
  | setShowDeleteConfirm (v : Option Nat)
  | netStart (c : NetCall)
  | netEnd
  | alert (msg : String)
  | consoleError (msg : String)
  | recStop
  | recStart
deriving DecidableEq, Repr

/-- Effect of one event on the component state; non-setter events leave
the state unchanged. -/
def applyEv (st : AppState) (e : Ev) : AppState :=
  match e with
  | Ev.setIsRecording b => { st with isRecording := b }
  | Ev.setTranscription s => { st with transcription := s }
  | Ev.setSaved l => { st with savedTranscriptions := l }
  | Ev.setIsLoading b => { st with isLoading := b }
  | Ev.setShowDeleteConfirm v => { st with showDeleteConfirm := v }
  | _ => st

/-- Run a trace of events from a state. -/
def run (st : AppState) (t : List Ev) : AppState :=
  t.foldl applyEv st

/- ### Timestamp: embedding of `new Date().toISOString()` -/

/-- One decimal digit character of `n` (its least significant digit). -/
def dc (n : Nat) : Char := Nat.digitChar (n % 10)

/-- Civil date from days since the Unix epoch (Gregorian calendar),
the standard days-to-civil algorithm restricted to nonnegative days. -/
def civilFromDays (z : Nat) : Nat × Nat × Nat :=
  let zs := z + 719468
  let era := zs / 146097
  let doe := zs % 146097
  let yoe := (doe - doe / 1460 + doe / 36524 - doe / 146096) / 365
  let y := yoe + era * 400
  let doy := doe - (365 * yoe + yoe / 4 - yoe / 100)
  let mp := (5 * doy + 2) / 153
  let d := doy - (153 * mp + 2) / 5 + 1
  let m := if mp < 10 then mp + 3 else mp - 9
  if m ≤ 2 then (y + 1, m, d) else (y, m, d)

/-- `Date.prototype.toISOString` on an epoch-milliseconds clock value:
`YYYY-MM-DDTHH:MM:SS.sssZ`, each field rendered at fixed width by decimal
digit extraction (the ECMA format for years 0 through 9999). -/
def toISOString (t : Nat) : String :=
  let ymd := civilFromDays (t / 86400000)
  let y := ymd.1
  let m := ymd.2.1
  let d := ymd.2.2
  let hh := t / 3600000 % 24
  let mi := t / 60000 % 60
  let ss := t / 1000 % 60
  let ms := t % 1000
  String.mk [dc (y / 1000), dc (y / 100), dc (y / 10), dc y, '-',
             dc (m / 10), dc m, '-', dc (d / 10), dc d, 'T',
             dc (hh / 10), dc hh, ':', dc (mi / 10), dc mi, ':',
             dc (ss / 10), dc ss, '.', dc (ms / 100), dc (ms / 10), dc ms, 'Z']

/-- Well-formedness of an ISO-8601 UTC timestamp string: exactly 24
characters, digits and the separators `-`, `T`, `:`, `.` in their places,
terminated by `Z`. -/
def isISO8601UTC (s : String) : Bool :=
  match s.data with
  | [y1, y2, y3, y4, c1, m1, m2, c2, d1, d2, c3, h1, h2, c4, n1, n2, c5,
     s1, s2, c6, f1, f2, f3, c7] =>
    y1.isDigit && y2.isDigit && y3.isDigit && y4.isDigit && (c1 == '-') &&
    m1.isDigit && m2.isDigit && (c2 == '-') && d1.isDigit && d2.isDigit &&
    (c3 == 'T') && h1.isDigit && h2.isDigit && (c4 == ':') &&
    n1.isDigit && n2.isDigit && (c5 == ':') && s1.isDigit && s2.isDigit &&
    (c6 == '.') && f1.isDigit && f2.isDigit && f3.isDigit && (c7 == 'Z')
  | _ => false

/-- The guard `!transcription.trim()` of the source: the draft is empty
or whitespace-only exactly when every character is whitespace. -/
def isBlank (s : String) : Bool :=
  s.data.all Char.isWhitespace

/- ### Handler traces, translated from the page component -/

/-- The `finally` block of `stopRecording`. -/
def stopFinally : List Ev :=
  [Ev.setIsLoading false, Ev.setIsRecording false, Ev.setTranscription ""]

/-- `loadSavedTranscriptions` after its probe response has arrived: the
probe-error early return, or the ordered select and the wholesale list
replacement, with the catch and finally blocks of the source. -/
def loadAfterProbe (db : DB) : List Ev :=
  match db.probeRes with
  | Res.ex => [Ev.consoleError "Unexpected error in loadSavedTranscriptions:",
               Ev.setIsLoading false]
  | Res.err => [Ev.consoleError "Supabase connection error:", Ev.setIsLoading false]
  | Res.ok =>
    [Ev.netStart NetCall.select, Ev.netEnd] ++
    (match db.selectRes with
     | Res.ex => [Ev.consoleError "Unexpected error in loadSavedTranscriptions:"]
     | Res.err => [Ev.consoleError "Error loading transcriptions:"]
     | Res.ok => [Ev.setSaved db.selectData]) ++
    [Ev.setIsLoading false]

/-- `loadSavedTranscriptions`: set loading, issue the count probe, then
continue per the probe outcome. -/
def loadSavedTranscriptions (db : DB) : List Ev :=
  [Ev.setIsLoading true, Ev.netStart NetCall.probe, Ev.netEnd] ++ loadAfterProbe db

/-- `stopRecording`: stop the recognition handle, early-return on a
whitespace-only draft, otherwise probe, insert the draft with an ISO
timestamp of the clock `now`, and on success fire the list reload without
awaiting it (its probe is issued, then the finally block runs, then the
probe response arrives and the reload completes). -/
def stopRecording (db : DB) (now : Nat) (st : AppState) : List Ev :=
  (if st.recognition then [Ev.recStop] else []) ++
  if isBlank st.transcription then
    [Ev.setIsRecording false]
  else
    [Ev.setIsLoading true, Ev.netStart NetCall.probe, Ev.netEnd] ++
    match db.probeRes with
    | Res.ex => [Ev.consoleError "Unexpected error in stopRecording:",
                 Ev.alert "An unexpected error occurred. Please try again."] ++ stopFinally
    | Res.err => [Ev.consoleError "Supabase connection error:",
                  Ev.alert "Failed to connect to the database. Please check your connection and try again.",
                  Ev.setIsRecording false] ++ stopFinally
    | Res.ok =>
      [Ev.netStart (NetCall.insert st.transcription (toISOString now)), Ev.netEnd] ++
      match db.insertRes with
      | Res.ex => [Ev.consoleError "Unexpected error in stopRecording:",
                   Ev.alert "An unexpected error occurred. Please try again."] ++ stopFinally
      | Res.err => [Ev.consoleError "Error saving transcription:",
                    Ev.alert "Failed to save transcription. Please try again."] ++ stopFinally
      | Res.ok =>
        [Ev.setIsLoading true, Ev.netStart NetCall.probe] ++ stopFinally ++
        [Ev.netEnd] ++ loadAfterProbe db

/-- The `finally` block of `deleteTranscription`. -/
def deleteFinally : List Ev :=
  [Ev.setIsLoading false, Ev.setShowDeleteConfirm none]

/-- `deleteTranscription`: set loading, issue the delete directly (no
probe precedes it in the source), then alert on failure or fire the
un-awaited reload on success, and always run the finally block. -/
def deleteTranscription (db : DB) (id : Nat) : List Ev :=
  [Ev.setIsLoading true, Ev.netStart (NetCall.delete id), Ev.netEnd] ++
  match db.deleteRes with
  | Res.ex => [Ev.consoleError "Unexpected error in deleteTranscription:",
               Ev.alert "An unexpected error occurred. Please try again."] ++ deleteFinally
  | Res.err => [Ev.consoleError "Error deleting transcription:",
                Ev.alert "Failed to delete transcription. Please try again."] ++ deleteFinally
  | Res.ok =>
    [Ev.setIsLoading true, Ev.netStart NetCall.probe] ++ deleteFinally ++
    [Ev.netEnd] ++ loadAfterProbe db

/-- `startRecording`: a no-op when the recognition handle is absent;
otherwise request the microphone (granted or denied per `permGranted`),
then either start streaming or alert, with the finally block. -/
def startRecording (st : AppState) (permGranted : Bool) : List Ev :=
  if st.recognition then
    [Ev.setIsLoading true] ++
    (if permGranted then [Ev.recStart, Ev.setIsRecording true]
     else [Ev.consoleError "Error accessing microphone:",
           Ev.alert "Unable to access microphone. Please ensure microphone permissions are granted and try again.",
           Ev.setIsRecording false]) ++
    [Ev.setIsLoading false]
  else []

/-- The mount-time effect on the handle: the capability lookup either
installs an instance or silently leaves the handle null. -/
def initRecognition (hasCapability : Bool) (st : AppState) : AppState :=
  if hasCapability then { st with recognition := true } else st

/-- The delete-trigger click handler of a row: `setShowDeleteConfirm(item.id)`. -/
def armDelete (st : AppState) (id : Nat) : AppState :=
  { st with showDeleteConfirm := some id }

/-- The cancel click handler: `setShowDeleteConfirm(null)`. -/
def cancelDelete (st : AppState) : AppState :=
  { st with showDeleteConfirm := none }

/-- A row is armed (shows Confirm/Cancel) when its id equals the shared
pending-delete id: `showDeleteConfirm === item.id` in the render. -/
def rowArmed (st : AppState) (id : Nat) : Prop :=
  st.showDeleteConfirm = some id

instance (st : AppState) (id : Nat) : Decidable (rowArmed st id) := by
  unfold rowArmed; infer_instance

/- ### Trace observations -/

/-- The network calls issued by a trace, in order of issue. -/
def netCalls (t : List Ev) : List NetCall :=
  t.filterMap fun e => match e with
    | Ev.netStart c => some c
    | _ => none

/-- The insert payloads carried by a trace. -/
def inserts (t : List Ev) : List (String × String) :=
  t.filterMap fun e => match e with
    | Ev.netStart (NetCall.insert x ts) => some (x, ts)
    | _ => none

/-- How many selects a trace issues. -/
def selectCount (t : List Ev) : Nat :=
  (netCalls t).count NetCall.select

/-- Whether a trace surfaces a user-facing alert. -/
def hasAlert (t : List Ev) : Bool :=
  t.any fun e => match e with
    | Ev.alert _ => true
    | _ => false

/-- Whether a trace writes a console error log. -/
def hasConsole (t : List Ev) : Bool :=
  t.any fun e => match e with
    | Ev.consoleError _ => true
    | _ => false

/-- Whether an event is a network-call boundary. -/
def isNetEv (e : Ev) : Bool :=
  match e with
  | Ev.netStart _ => true
  | Ev.netEnd => true
  | _ => false

/-- A list of network boundaries is a sequence of immediately closed
start-end pairs: no call starts while another is in flight. -/
def paired : List Ev → Bool
  | [] => true
  | Ev.netStart _ :: Ev.netEnd :: r => paired r
  | _ => false

/-- Network calls in a trace never overlap: restricted to network
boundaries, the trace alternates start, end, start, end. -/
def seqNet (t : List Ev) : Bool :=
  paired (t.filter isNetEv)

/- ### Shared concrete fixtures -/

/-- An all-succeeding store. -/
def dbOk : DB :=
  { probeRes := Res.ok, insertRes := Res.ok, selectRes := Res.ok,
    selectData := [], deleteRes := Res.ok }

/-- A store whose insert and delete fail with error results. -/
def dbFail : DB :=
  { probeRes := Res.ok, insertRes := Res.err, selectRes := Res.ok,
    selectData := [], deleteRes := Res.err }

/-- A store whose probe fails. -/
def dbProbeErr : DB :=
  { probeRes := Res.err, insertRes := Res.ok, selectRes := Res.ok,
    selectData := [], deleteRes := Res.ok }

/-- A recording session holding the draft "hello world". -/
def stHello : AppState :=
  { initialState with transcription := "hello world", isRecording := true, recognition := true }

/-- A recording session holding a whitespace-only draft. -/
def stBlank : AppState :=
  { initialState with transcription := " ", isRecording := true, recognition := true }

/- ### Helper lemmas -/

lemma digitChar_isDigit : ∀ r < 10, (Nat.digitChar r).isDigit = true := by decide

lemma dc_isDigit (n : Nat) : (dc n).isDigit = true :=
  digitChar_isDigit (n % 10) (Nat.mod_lt _ (by decide))

lemma iso_wf (t : Nat) : isISO8601UTC (toISOString t) = true := by
  simp [toISOString, isISO8601UTC, dc_isDigit]

/- ### Claims -/

/-- Claim C3: stopping with an empty or whitespace-only draft issues no
network call of any kind and sets isRecording to false. -/
theorem stop_blank_no_network (db : DB) (now : Nat) (st : AppState)
    (h : isBlank st.transcription = true) :
    netCalls (stopRecording db now st) = [] ∧
    (run st (stopRecording db now st)).isRecording = false := by
  by_cases hr : st.recognition <;>
  simp [stopRecording, h, hr, netCalls, run, applyEv]

/-- Claim C3 witness: a whitespace-only draft at a concrete state. -/
theorem stop_blank_no_network_witness :
    netCalls (stopRecording dbOk 0 stBlank) = [] ∧
    (run stBlank (stopRecording dbOk 0 stBlank)).isRecording = false :=
  stop_blank_no_network dbOk 0 stBlank (by decide)

/-- Claim C6: deleteTranscription leaves the pending-delete confirmation
gate cleared whatever the delete outcome (success, store error, or an
unexpected throw). -/
theorem delete_clears_pending (db : DB) (i : Nat) (st : AppState) :
    (run st (deleteTranscription db i)).showDeleteConfirm = none := by
  obtain ⟨pr, ir, sr, sd, der⟩ := db
  cases pr <;> cases sr <;> cases der <;>
  simp [deleteTranscription, deleteFinally, loadAfterProbe, run, applyEv]

/-- Claim C7: the single shared pending-delete id arms at most one row;
arming A then B leaves only B armed; cancel leaves every row unarmed. -/
theorem single_armed_row (st : AppState) (a b : Nat) :
    (∀ j, rowArmed (armDelete (armDelete st a) b) j ↔ j = b) ∧
    (∀ j, ¬ rowArmed (cancelDelete (armDelete st a)) j) ∧
    (∀ i j, rowArmed st i → rowArmed st j → i = j) := by
  refine ⟨fun j => ?_, fun j => ?_, fun i j hi hj => Option.some.inj (hi.symm.trans hj)⟩
  · exact ⟨fun h => (Option.some.inj h).symm, fun h => by subst h; rfl⟩
  · simp [rowArmed, cancelDelete, armDelete]

/-- Claim C7 witness: arm row 1 then row 2 leaves row 2 armed, cancel
disarms, and a state with row 3 armed has only row 3 armed. -/
theorem single_armed_row_witness :
    rowArmed (armDelete (armDelete initialState 1) 2) 2 ∧
    ¬ rowArmed (cancelDelete (armDelete initialState 1)) 1 ∧ (3 : Nat) = 3 :=
  ⟨((single_armed_row initialState 1 2).1 2).mpr rfl,
   (single_armed_row initialState 1 2).2.1 1,
   (single_armed_row (armDelete initialState 3) 1 2).2.2 3 3 rfl rfl⟩

/-- Claim C8: with no recognition capability the handle stays none and
startRecording is inert — an empty trace and an unchanged state (the
trace function is total, so no exception is raised either). -/
theorem start_inert_without_capability (p : Bool) (st : AppState)
    (h : st.recognition = false) :
    startRecording st p = [] ∧ run st (startRecording st p) = st ∧
    (initRecognition false st).recognition = false := by
  simp [startRecording, initRecognition, h, run]

/-- Claim C8 witness: the mount state of a capability-less platform. -/
theorem start_inert_without_capability_witness :
    startRecording initialState true = [] ∧
    run initialState (startRecording initialState true) = initialState ∧
    (initRecognition false initialState).recognition = false :=
  start_inert_without_capability true initialState rfl

/-- Claim C1 counterexample: deleteTranscription issues the delete as its
first network call — no count probe precedes it. -/
theorem delete_no_probe_cex :
    (netCalls (deleteTranscription dbOk 7)).head? = some (NetCall.delete 7) ∧
    NetCall.delete 7 ≠ NetCall.probe :=
  ⟨rfl, by decide⟩

/-- Claim C1 amended: the count probe precedes and gates the insert (save)
and the select (load) — a failed probe means they are never attempted —
but the delete path issues the delete directly with no preceding probe. -/
theorem probe_gates_save_load_not_delete (db : DB) (now : Nat) (st : AppState) (i : Nat)
    (h1 : isBlank st.transcription = false) :
    (netCalls (stopRecording db now st)).head? = some NetCall.probe ∧
    (netCalls (loadSavedTranscriptions db)).head? = some NetCall.probe ∧
    (db.probeRes = Res.err →
      inserts (stopRecording db now st) = [] ∧
      selectCount (loadSavedTranscriptions db) = 0) ∧
    (netCalls (deleteTranscription db i)).head? = some (NetCall.delete i) := by
  refine ⟨?_, rfl, fun hpe => ?_, rfl⟩
  · by_cases hr : st.recognition <;> simp [stopRecording, netCalls, h1, hr]
  · by_cases hr : st.recognition <;>
    simp [stopRecording, loadSavedTranscriptions, loadAfterProbe, stopFinally,
          inserts, selectCount, netCalls, h1, hpe, hr]

/-- Claim C1 amended witness: at a failed probe with draft "hello world". -/
theorem probe_gates_witness :
    (netCalls (stopRecording dbProbeErr 0 stHello)).head? = some NetCall.probe ∧
    (netCalls (loadSavedTranscriptions dbProbeErr)).head? = some NetCall.probe ∧
    (dbProbeErr.probeRes = Res.err →
      inserts (stopRecording dbProbeErr 0 stHello) = [] ∧
      selectCount (loadSavedTranscriptions dbProbeErr) = 0) ∧
    (netCalls (deleteTranscription dbProbeErr 7)).head? = some (NetCall.delete 7) :=
  probe_gates_save_load_not_delete dbProbeErr 0 stHello 7 (by decide)

/-- Claim C2: stopping with a non-blank draft and a passing probe issues
exactly one insert carrying exactly the draft and a well-formed ISO-8601
UTC timestamp, and on insert success the full list reload follows (its
probe and select). -/
theorem save_inserts_draft_once_iso (db : DB) (now : Nat) (st : AppState)
    (h1 : isBlank st.transcription = false) (h2 : db.probeRes = Res.ok)
    (h3 : db.insertRes = Res.ok) :
    netCalls (stopRecording db now st) =
      [NetCall.probe, NetCall.insert st.transcription (toISOString now),
       NetCall.probe, NetCall.select] ∧
    inserts (stopRecording db now st) = [(st.transcription, toISOString now)] ∧
    isISO8601UTC (toISOString now) = true := by
  by_cases hr : st.recognition <;> cases hs : db.selectRes <;>
  simp [stopRecording, loadAfterProbe, stopFinally, netCalls, inserts,
        h1, h2, h3, hr, hs, iso_wf]

/-- Claim C2 witness: draft "hello world" at a concrete clock value. -/
theorem save_inserts_draft_once_iso_witness :
    netCalls (stopRecording dbOk 1706700000000 stHello) =
      [NetCall.probe, NetCall.insert stHello.transcription (toISOString 1706700000000),
       NetCall.probe, NetCall.select] ∧
    inserts (stopRecording dbOk 1706700000000 stHello) =
      [(stHello.transcription, toISOString 1706700000000)] ∧
    isISO8601UTC (toISOString 1706700000000) = true :=
  save_inserts_draft_once_iso dbOk 1706700000000 stHello (by decide) rfl rfl

/-- Claim C4 counterexample: stopping with the whitespace-only draft " "
leaves the draft equal to " ", not cleared to the empty string. -/
theorem stop_blank_keeps_draft_cex :
    (run stBlank (stopRecording dbOk 0 stBlank)).transcription = " " ∧ " " ≠ "" :=
  ⟨rfl, by decide⟩

/-- Claim C4 amended: every stopRecording run that passes the non-blank
guard — probe failure, insert failure, unexpected throw, or success —
clears the draft to the empty string; the blank-draft early return leaves
the draft unchanged. -/
theorem stop_nonblank_clears_draft (db : DB) (now : Nat) (st : AppState)
    (h : isBlank st.transcription = false) :
    (run st (stopRecording db now st)).transcription = "" := by
  by_cases hr : st.recognition <;> cases hp : db.probeRes <;> cases hi : db.insertRes <;>
  cases hs : db.selectRes <;>
  simp [stopRecording, loadAfterProbe, stopFinally, run, applyEv, h, hr, hp, hi, hs]

/-- Claim C4 amended witness: a failing insert still clears the draft. -/
theorem stop_nonblank_clears_draft_witness :
    (run stHello (stopRecording dbFail 0 stHello)).transcription = "" :=
  stop_nonblank_clears_draft dbFail 0 stHello (by decide)

/-- Claim C5: a failed probe short-circuits — the save path issues no
insert and alerts the user, the load path issues no select, shows no
alert, and logs to the console. -/
theorem probe_error_short_circuits (db : DB) (now : Nat) (st : AppState)
    (h1 : isBlank st.transcription = false) (h2 : db.probeRes = Res.err) :
    inserts (stopRecording db now st) = [] ∧
    hasAlert (stopRecording db now st) = true ∧
    selectCount (loadSavedTranscriptions db) = 0 ∧
    hasAlert (loadSavedTranscriptions db) = false ∧
    hasConsole (loadSavedTranscriptions db) = true := by
  by_cases hr : st.recognition <;>
  simp [stopRecording, loadSavedTranscriptions, loadAfterProbe, stopFinally,
        inserts, hasAlert, hasConsole, selectCount, netCalls, h1, h2, hr]

/-- Claim C5 witness: failed probe with draft "hello world". -/
theorem probe_error_short_circuits_witness :
    inserts (stopRecording dbProbeErr 0 stHello) = [] ∧
    hasAlert (stopRecording dbProbeErr 0 stHello) = true ∧
    selectCount (loadSavedTranscriptions dbProbeErr) = 0 ∧
    hasAlert (loadSavedTranscriptions dbProbeErr) = false ∧
    hasConsole (loadSavedTranscriptions dbProbeErr) = true :=
  probe_error_short_circuits dbProbeErr 0 stHello (by decide) rfl

/-- Claim C9: restricted to network-call boundaries, every handler trace
is a sequence of immediately closed start-end pairs — no network call is
issued while another is in flight, including across the fire-and-forget
reload after a successful insert or delete. -/
theorem network_calls_sequential (db : DB) (now : Nat) (st : AppState) (i : Nat) (p : Bool) :
    seqNet (stopRecording db now st) = true ∧
    seqNet (loadSavedTranscriptions db) = true ∧
    seqNet (deleteTranscription db i) = true ∧
    seqNet (startRecording st p) = true := by
  refine ⟨?_, ?_, ?_, ?_⟩
  · by_cases hr : st.recognition <;> by_cases hb : isBlank st.transcription <;>
    cases hp : db.probeRes <;> cases hi : db.insertRes <;> cases hs : db.selectRes <;>
    simp [stopRecording, loadAfterProbe, stopFinally, seqNet, paired, isNetEv,
          hr, hb, hp, hi, hs, List.filter]
  · cases hp : db.probeRes <;> cases hs : db.selectRes <;>
    simp [loadSavedTranscriptions, loadAfterProbe, seqNet, paired, isNetEv,
          hp, hs, List.filter]
  · cases hd : db.deleteRes <;> cases hp : db.probeRes <;> cases hs : db.selectRes <;>
    simp [deleteTranscription, loadAfterProbe, deleteFinally, seqNet, paired, isNetEv,
          hd, hp, hs, List.filter]
  · by_cases hr : st.recognition <;> cases p <;>
    simp [startRecording, seqNet, paired, isNetEv, hr, List.filter]

/-- Claim C10: when the insert errors (probe having passed) or the delete
errors, the in-memory saved list is unchanged and no reload is issued —
the trace ends at the failed mutation. -/
theorem mutation_failure_preserves_list (db : DB) (now : Nat) (st st2 : AppState) (i : Nat)
    (h1 : isBlank st.transcription = false) (h2 : db.probeRes = Res.ok)
    (h3 : db.insertRes ≠ Res.ok) (h4 : db.deleteRes ≠ Res.ok) :
    (run st (stopRecording db now st)).savedTranscriptions = st.savedTranscriptions ∧
    netCalls (stopRecording db now st) =
      [NetCall.probe, NetCall.insert st.transcription (toISOString now)] ∧
    (run st2 (deleteTranscription db i)).savedTranscriptions = st2.savedTranscriptions ∧
    netCalls (deleteTranscription db i) = [NetCall.delete i] := by
  by_cases hr : st.recognition <;> cases hi : db.insertRes <;> cases hd : db.deleteRes <;>
  simp_all [stopRecording, deleteTranscription, loadAfterProbe, stopFinally, deleteFinally,
            run, applyEv, netCalls]

/-- Claim C10 witness: failing insert and delete leave the list as it was. -/
theorem mutation_failure_preserves_list_witness :
    (run stHello (stopRecording dbFail 0 stHello)).savedTranscriptions =
      stHello.savedTranscriptions ∧
    netCalls (stopRecording dbFail 0 stHello) =
      [NetCall.probe, NetCall.insert stHello.transcription (toISOString 0)] ∧
    (run initialState (deleteTranscription dbFail 7)).savedTranscriptions =
      initialState.savedTranscriptions ∧
    netCalls (deleteTranscription dbFail 7) = [NetCall.delete 7] :=
  mutation_failure_preserves_list dbFail 0 stHello initialState 7
    (by decide) rfl (by decide) (by decide)
